import Mathlib

/-!
Shallow embedding of the screenshot-studio frame editor: the settings data
model (src/types.ts), the canvas layout computations and background style
resolver (src/components/Canvas.tsx), the sidebar state updates
(src/components/Sidebar.tsx, src/unnamed/part_002), the palette service
(src/unnamed/part_001), and the export pipeline of the application root
(src/unnamed/part_000).
-/

namespace ScreenshotStudio

/-- src/types.ts: `BackgroundType`. -/
inductive BackgroundType where
  | wallpaper
  | gradient
  | solid
  | image
  deriving DecidableEq, Repr

/-- src/types.ts: `GradientDirection` (eight CSS linear-gradient directions). -/
inductive GradientDirection where
  | toRight
  | toLeft
  | toBottom
  | toTop
  | toBottomRight
  | toBottomLeft
  | toTopRight
  | toTopLeft
  deriving DecidableEq, Repr

/-- The CSS text of a gradient direction, as it appears in the TS string union. -/
def GradientDirection.css : GradientDirection → String
  | .toRight => "to right"
  | .toLeft => "to left"
  | .toBottom => "to bottom"
  | .toTop => "to top"
  | .toBottomRight => "to bottom right"
  | .toBottomLeft => "to bottom left"
  | .toTopRight => "to top right"
  | .toTopLeft => "to top left"

/-- src/types.ts: `GradientConfig`. The TS field `end` is a Lean keyword,
so it is written `«end»` here. -/
structure GradientConfig where
  start : String
  «end» : String
  direction : GradientDirection
  deriving DecidableEq, Repr

/-- src/types.ts: `BackgroundConfig`. `blur` is an integer pixel count
(the UI slider ranges over 0..40). -/
structure BackgroundConfig where
  type : BackgroundType
  solid : String
  gradient : GradientConfig
  image : String
  blur : Nat
  deriving DecidableEq, Repr

/-- src/types.ts: `ShadowConfig`. -/
structure ShadowConfig where
  size : String
  color : String
  opacity : ℚ
  deriving DecidableEq, Repr

/-- src/types.ts: `ExportFormat`. -/
inductive ExportFormat where
  | png
  | jpeg
  | webp
  deriving DecidableEq, Repr

/-- The file extension used in the download name for each format. -/
def ExportFormat.ext : ExportFormat → String
  | .png => "png"
  | .jpeg => "jpeg"
  | .webp => "webp"

/-- src/types.ts: the `aspectRatio` string union `16/9 | 4/3 | 1/1 | 9/16`. -/
inductive AspectRatio where
  | r16x9
  | r4x3
  | r1x1
  | r9x16
  deriving DecidableEq, Repr

/-- The numerator `w` of `settings.aspectRatio.split('/')`. -/
def AspectRatio.w : AspectRatio → ℚ
  | .r16x9 => 16
  | .r4x3 => 4
  | .r1x1 => 1
  | .r9x16 => 9

/-- The denominator `h` of `settings.aspectRatio.split('/')`. -/
def AspectRatio.h : AspectRatio → ℚ
  | .r16x9 => 9
  | .r4x3 => 3
  | .r1x1 => 1
  | .r9x16 => 16

/-- src/types.ts: `EditorSettings`. -/
structure EditorSettings where
  padding : ℚ
  borderRadius : ℚ
  rotate : ℚ
  scale : ℚ
  aspectRatio : AspectRatio
  background : BackgroundConfig
  shadow : ShadowConfig
  darkModeWindow : Bool
  outputFormat : ExportFormat
  deriving DecidableEq, Repr

/-- src/types.ts: `GeneratedPalette`. -/
structure GeneratedPalette where
  colors : List String
  description : Option String
  deriving DecidableEq, Repr

/-- The initial settings record of src/unnamed/part_000 lines 12-36. -/
def defaultSettings : EditorSettings where
  padding := 64
  borderRadius := 16
  rotate := 0
  scale := 1
  aspectRatio := .r16x9
  background :=
    { type := .wallpaper
      solid := "#1a1a1a"
      gradient := { start := "#09203f", «end» := "#537895", direction := .toTop }
      image := ""
      blur := 0 }
  shadow := { size := "xl", color := "#000000", opacity := 1/2 }
  darkModeWindow := true
  outputFormat := .jpeg

/-! ## Canvas layout (src/components/Canvas.tsx) -/

/-- Canvas.tsx line 87 (and line 28): the fixed logical base width. -/
def baseWidth : ℚ := 1200

/-- Canvas.tsx line 88: `baseHeight = baseWidth * (h / w)` for the current
aspect ratio. -/
def baseHeight (ar : AspectRatio) : ℚ :=
  baseWidth * (ar.h / ar.w)

/-- Canvas.tsx line 91: the fixed window-chrome header height. -/
def headerHeight : ℚ := 32

/-- Canvas.tsx line 95: `maxImgWidth = baseWidth - padding * 2`. -/
def maxImgWidth (s : EditorSettings) : ℚ :=
  baseWidth - s.padding * 2

/-- Canvas.tsx line 96:
`maxImgHeight = Math.max(0, baseHeight - padding * 2 - headerHeight)`. -/
def maxImgHeight (s : EditorSettings) : ℚ :=
  max 0 (baseHeight s.aspectRatio - s.padding * 2 - headerHeight)

/-- Canvas.tsx lines 18-44: the presentational fit scale
`Math.min(1, scaleX, scaleY)` computed from the viewport, with the fixed
60px spacing subtracted from each dimension. -/
def previewScale (viewportW viewportH : ℚ) (ar : AspectRatio) : ℚ :=
  min 1 (min ((viewportW - 60) / baseWidth) ((viewportH - 60) / baseHeight ar))

/-- The rendered frame handed to the export pipeline: the node referenced by
`exportRef` has CSS size `baseWidth × baseHeight` (Canvas.tsx lines 150-157);
the fit scale is applied to an ancestor wrapper only (lines 142-147), so it
is carried separately and never changes the frame's own dimensions. -/
structure FrameSpec where
  width : ℚ
  height : ℚ
  fitScale : ℚ
  deriving DecidableEq, Repr

/-- The frame produced by Canvas.tsx for given settings and viewport. -/
def renderedFrame (s : EditorSettings) (viewportW viewportH : ℚ) : FrameSpec where
  width := baseWidth
  height := baseHeight s.aspectRatio
  fitScale := previewScale viewportW viewportH s.aspectRatio

/-- src/unnamed/part_000 line 136: exports rasterize at `pixelRatio = 2`. -/
def exportPixelRatio : ℚ := 2

/-- The pixel dimensions of an exported raster: the frame node's logical
size times the fixed pixel ratio. -/
def exportPixelDims (s : EditorSettings) (viewportW viewportH : ℚ) : ℚ × ℚ :=
  let f := renderedFrame s viewportW viewportH
  ( exportPixelRatio * f.width, exportPixelRatio * f.height)

/-! ## Background resolver (Canvas.tsx `getBackgroundStyle`, lines 59-83) -/

/-- The subset of CSS properties `getBackgroundStyle` can set. -/
structure CSSStyle where
  backgroundColor : Option String := none
  backgroundImage : Option String := none
  backgroundSize : Option String := none
  backgroundPosition : Option String := none
  filter : Option String := none
  transform : Option String := none
  deriving DecidableEq, Repr

/-- Canvas.tsx lines 59-83: maps the background config to a paint style.
The TS `else` branch (opaque black) is unreachable for the four-variant
enum and so has no arm here. -/
def getBackgroundStyle (bg : BackgroundConfig) : CSSStyle :=
  match bg.type with
  | .solid => { backgroundColor := some bg.solid }
  | .gradient =>
      { backgroundImage :=
          some ("linear-gradient(" ++ bg.gradient.direction.css ++ ", "
            ++ bg.gradient.start ++ ", " ++ bg.gradient.«end» ++ ")") }
  | .wallpaper | .image =>
      let base : CSSStyle :=
        { backgroundImage := some ("url(" ++ bg.image ++ ")")
          backgroundSize := some "cover"
          backgroundPosition := some "center" }
      if 0 < bg.blur then
        { base with
            filter := some ("blur(" ++ toString bg.blur ++ "px)")
            transform := some "scale(1.05)" }
      else
        base

/-! ## Sidebar background updates (src/components/Sidebar.tsx, src/unnamed/part_002) -/

/-- Sidebar.tsx lines 64-66 (= part_002 lines 84-86):
`updateSettings({ background: { ...settings.background, type } })`. -/
def setBgType (bg : BackgroundConfig) (type : BackgroundType) : BackgroundConfig :=
  { bg with type := type }

/-- part_002 lines 64-76: the background update applied by `handleSmartPalette`
when the palette result arrives. `result.colors[0]` and
`result.colors[result.colors.length - 1]` are modelled with `List.getD`
(the guard guarantees the indices are in range). -/
def applySmartPalette (bg : BackgroundConfig) (result : GeneratedPalette) :
    BackgroundConfig :=
  if 2 ≤ result.colors.length then
    { bg with
        type := .gradient
        gradient :=
          { start := result.colors.getD 0 ""
            «end» := result.colors.getD (result.colors.length - 1) ""
            direction := .toBottomRight } }
  else
    bg

/-- part_002 lines 59-82: `handleSmartPalette` returns at once when no image
is loaded, otherwise awaits the palette result and applies it. -/
def handleSmartPalette (imageData : Option String) (bg : BackgroundConfig)
    (result : GeneratedPalette) : BackgroundConfig :=
  match imageData with
  | none => bg
  | some _ => applySmartPalette bg result

/-! ## Palette service (src/unnamed/part_001, `generateSmartPalette`) -/

/-- part_001 line 10: the fallback returned when no API key is configured. -/
def fallbackNoKey : GeneratedPalette :=
  { colors := ["#3b82f6", "#8b5cf6", "#ec4899"], description := none }

/-- part_001 line 64: the fallback returned by the catch branch when the
remote call (or response parsing) fails. -/
def fallbackError : GeneratedPalette :=
  { colors := ["#18181b", "#27272a", "#3f3f46"], description := some "Fallback Dark Mode" }

/-- part_001 lines 7-66: `generateSmartPalette`. The environment credential
`process.env.API_KEY || ''` is the `apiKey` argument (absent = empty string);
the awaited remote call together with the response checks and JSON parse of
the try block is the `remote` argument (`Except.error` covers any thrown
failure). The function never throws: every branch returns a palette. -/
def generateSmartPalette (apiKey : String)
    (remote : Except String GeneratedPalette) : GeneratedPalette :=
  if apiKey = "" then
    fallbackNoKey
  else
    match remote with
    | .ok data => data
    | .error _ => fallbackError

/-! ## Image ingestion (src/unnamed/part_000 lines 38-93, Canvas.tsx lines 104-111) -/

/-- A file handed to ingestion: its MIME type and the data-URI string the
`FileReader` would produce from its bytes. -/
structure IngestFile where
  mime : String
  data : String
  deriving DecidableEq, Repr

/-- Character-list version of JS `String.startsWith`: does the second list
start with the first? -/
def listStartsWith : List Char → List Char → Bool
  | [], _ => true
  | _ :: _, [] => false
  | a :: pat, b :: rest => a == b && listStartsWith pat rest

/-- Character-list version of JS `indexOf(...) !== -1`: does the second list
contain the first as a contiguous run? -/
def listContainsSub (pat : List Char) : List Char → Bool
  | [] => listStartsWith pat []
  | c :: rest => listStartsWith pat (c :: rest) || listContainsSub pat rest

/-- `file.type.startsWith('image/')`. -/
def mimeIsImage (m : String) : Bool :=
  listStartsWith ("image/".toList) m.toList

/-- `items[i].type.indexOf('image') !== -1` (substring containment). -/
def mimeMentionsImage (m : String) : Bool :=
  listContainsSub ("image".toList) m.toList

/-- part_000 lines 39-46: `processFile` keeps the current image unless the
file's MIME type begins with `image/`, in which case the reader replaces it
with the file's data URI. -/
def processFile (current : Option String) (file : IngestFile) : Option String :=
  if mimeIsImage file.mime then some file.data else current

/-- part_000 lines 85-93: the file-picker change handler; an empty selection
resets the image to null. -/
def handleUpload (current : Option String) (file : Option IngestFile) :
    Option String :=
  match file with
  | some f => processFile current f
  | none => none

/-- Canvas.tsx lines 104-111: drag-and-drop forwards the first dropped file
to `processFile`; an empty file list does nothing. -/
def handleFileDrop (current : Option String) (files : List IngestFile) :
    Option String :=
  match files with
  | [] => current
  | f :: _ => processFile current f

/-- A clipboard item: its advertised MIME type and the result of
`getAsFile()` (which may be null). -/
structure ClipItem where
  mime : String
  file : Option IngestFile
  deriving DecidableEq, Repr

/-- part_000 lines 50-64: the paste handler scans for the first item whose
type mentions `image` (then breaks); if that item yields a file it goes
through `processFile`, otherwise nothing happens. -/
def handlePaste (current : Option String) (items : List ClipItem) :
    Option String :=
  match items.find? (fun it => mimeMentionsImage it.mime) with
  | none => current
  | some it =>
      match it.file with
      | none => current
      | some f => processFile current f

/-! ## Export pipeline (src/unnamed/part_000, `handleDownload` and `handleCopy`) -/

/-- An opaque handle for a rasterized blob. -/
abbrev Blob := Nat

/-- The option bag passed to the html-to-image rasterization calls. -/
structure RasterOptions where
  cacheBust : Bool := true
  pixelRatio : ℚ
  quality : Option ℚ := none
  backgroundColor : Option String := none
  mimeType : Option String := none
  deriving DecidableEq, Repr

/-- An observable effect of the export/copy handlers: a rasterization call,
an object-URL lifecycle step, a triggered download, or a clipboard write. -/
inductive ExportEvent where
  | rasterPng (opts : RasterOptions)
  | rasterJpeg (opts : RasterOptions)
  | rasterBlob (opts : RasterOptions)
  | createObjectURL (url : String)
  | triggerDownload (url : String) (filename : String)
  | revokeObjectURL (url : String)
  | clipboardWrite (mime : String)
  deriving DecidableEq, Repr

/-- part_000 lines 102 and 137: the backing fill supplied to rasterization,
`background.type === 'solid' ? background.solid : '#000'`. -/
def exportBackgroundColor (bg : BackgroundConfig) : String :=
  if bg.type = .solid then bg.solid else "#000"

/-- part_000 lines 124-168: the effect trace of `handleDownload`. `image` and
`hasNode` feed the guard on line 125; `pngUrl`/`jpegUrl` are the data URLs the
corresponding rasterization calls would resolve to; `webpBlob` is the blob the
webp rasterization would resolve to (none = null); `mkObjectURL` is the
browser's `URL.createObjectURL`. `downloadUrl` starts as the empty string and
the download (and, for webp, the revocation) only happens when it is
non-empty, mirroring the truthiness test on line 151. -/
def handleDownload (s : EditorSettings) (image : Option String) (hasNode : Bool)
    (pngUrl jpegUrl : String) (webpBlob : Option Blob)
    (mkObjectURL : Blob → String) : List ExportEvent :=
  if image.isNone || !hasNode then
    []
  else
    let pixelRatio : ℚ := 2
    let backgroundColor := exportBackgroundColor s.background
    let step1 : String × List ExportEvent :=
      match s.outputFormat with
      | .png => (pngUrl, [.rasterPng { pixelRatio := pixelRatio }])
      | .jpeg =>
          (jpegUrl,
            [.rasterJpeg
              { pixelRatio := pixelRatio
                quality := some 1
                backgroundColor := some backgroundColor }])
      | .webp =>
          match webpBlob with
          | some b =>
              (mkObjectURL b,
                [.rasterBlob { pixelRatio := pixelRatio, mimeType := some "image/webp" },
                 .createObjectURL (mkObjectURL b)])
          | none =>
              ("", [.rasterBlob { pixelRatio := pixelRatio, mimeType := some "image/webp" }])
    let downloadUrl := step1.1
    let step2 : List ExportEvent :=
      if downloadUrl ≠ "" then
        .triggerDownload downloadUrl ("screenshot-studio-export." ++ s.outputFormat.ext)
          :: (if s.outputFormat = .webp then [.revokeObjectURL downloadUrl] else [])
      else
        []
    step1.2 ++ step2

/-- part_000 lines 95-118: the effect trace of `handleCopy`. The clipboard
path always rasterizes to a PNG blob with the solid-or-black backing fill and
writes the blob to the clipboard when it is non-null. -/
def handleCopy (s : EditorSettings) (image : Option String) (hasNode : Bool)
    (blob : Option Blob) : List ExportEvent :=
  if image.isNone || !hasNode then
    []
  else
    .rasterBlob
      { pixelRatio := 2
        backgroundColor := some (exportBackgroundColor s.background)
        mimeType := some "image/png" }
      :: (match blob with
          | some _ => [.clipboardWrite "image/png"]
          | none => [])

/-- Modelled from the spec: the html-to-image rasterizer (a third-party
library, not part of src/) fills every output pixel where the captured frame
is transparent with the supplied `backgroundColor` option, and keeps the
frame's own color elsewhere. -/
def rasterizePixel (framePixel : Option String) (backgroundColor : String) :
    String :=
  match framePixel with
  | some c => c
  | none => backgroundColor

/-! ## Theorems -/

/-- C1: for every valid `aspectRatio` value, the exported frame's pixel
dimensions are `2 * 1200` by `2 * (1200 * h/w)` — derived solely from the
fixed 1200-logical-unit base width and the aspect ratio at pixel ratio 2 —
and they are identical across all viewport sizes (and hence independent of
the preview fit scale computed from the viewport). -/
theorem c1_export_dims_viewport_independent (s : EditorSettings)
    (vW vH vW' vH' : ℚ) :
    exportPixelDims s vW vH
      = ( exportPixelRatio * 1200,
          exportPixelRatio * (1200 * ( s.aspectRatio.h / s.aspectRatio.w)))
    ∧ exportPixelDims s vW vH = exportPixelDims s vW' vH' :=
  ⟨rfl, rfl⟩

/-- C2: `setBgType` modifies only the `type` discriminant of the background
record, leaving `solid`, `gradient`, `image` and `blur` untouched; hence
switching to any other variant and back restores the original record
exactly. -/
theorem c2_setBgType_only_type (bg : BackgroundConfig) (t t' : BackgroundType) :
    (setBgType bg t).type = t
    ∧ (setBgType bg t).solid = bg.solid
    ∧ (setBgType bg t).gradient = bg.gradient
    ∧ (setBgType bg t).image = bg.image
    ∧ (setBgType bg t).blur = bg.blur
    ∧ setBgType (setBgType bg t') bg.type = bg := by
  refine ⟨rfl, rfl, rfl, rfl, rfl, ?_⟩
  cases bg
  rfl

/-- C3: the compositor's maximum image height is never negative; it is
exactly 0 whenever `2*padding + headerHeight` exceeds the canvas height
`1200 * h/w`, and equals `canvasHeight - 2*padding - headerHeight` for all
smaller paddings. -/
theorem c3_maxImgHeight_clamped (s : EditorSettings) :
    0 ≤ maxImgHeight s
    ∧ (baseHeight s.aspectRatio < s.padding * 2 + headerHeight →
        maxImgHeight s = 0)
    ∧ (s.padding * 2 + headerHeight ≤ baseHeight s.aspectRatio →
        maxImgHeight s = baseHeight s.aspectRatio - s.padding * 2 - headerHeight) := by
  unfold maxImgHeight
  refine ⟨le_max_left _ _, fun h => ?_, fun h => ?_⟩
  · exact max_eq_left (by linarith)
  · exact max_eq_right (by linarith)

/-- Witness for C3: a 600px padding on the 16/9 canvas (height 675) clamps
the maximum image height to 0, while the default 64px padding yields the
un-clamped formula. -/
theorem c3_maxImgHeight_clamped_witness :
    maxImgHeight { defaultSettings with padding := 600 } = 0
    ∧ maxImgHeight defaultSettings
        = baseHeight defaultSettings.aspectRatio
            - defaultSettings.padding * 2 - headerHeight :=
  ⟨(c3_maxImgHeight_clamped { defaultSettings with padding := 600 }).2.1
      (by norm_num [defaultSettings, baseHeight, baseWidth, headerHeight,
        AspectRatio.h, AspectRatio.w]),
   (c3_maxImgHeight_clamped defaultSettings).2.2
      (by norm_num [defaultSettings, baseHeight, baseWidth, headerHeight,
        AspectRatio.h, AspectRatio.w])⟩

/-- C4: whenever the palette-service response holds at least two colors,
applying the smart palette turns the background into a gradient whose start
is the first returned color, whose end is the last returned color, and whose
direction is `to bottom right`; the other background fields are untouched. -/
theorem c4_smart_palette_applies_gradient (img : String) (bg : BackgroundConfig)
    (result : GeneratedPalette) (h : 2 ≤ result.colors.length) :
    (handleSmartPalette (some img) bg result).type = .gradient
    ∧ (handleSmartPalette (some img) bg result).gradient.start
        = result.colors.headD ""
    ∧ (handleSmartPalette (some img) bg result).gradient.«end»
        = result.colors.getLastD ""
    ∧ (handleSmartPalette (some img) bg result).gradient.direction
        = .toBottomRight
    ∧ (handleSmartPalette (some img) bg result).solid = bg.solid
    ∧ (handleSmartPalette (some img) bg result).image = bg.image
    ∧ (handleSmartPalette (some img) bg result).blur = bg.blur := by
  have key : handleSmartPalette (some img) bg result
      = { bg with
            type := .gradient
            gradient :=
              { start := result.colors.getD 0 ""
                «end» := result.colors.getD (result.colors.length - 1) ""
                direction := .toBottomRight } } := by
    simp [handleSmartPalette, applySmartPalette, h]
  obtain ⟨c, rest, hc⟩ : ∃ c rest, result.colors = c :: rest := by
    cases hcol : result.colors with
    | nil => simp [hcol] at h
    | cons c rest => exact ⟨c, rest, rfl⟩
  rw [key]
  refine ⟨rfl, ?_, ?_, rfl, rfl, rfl, rfl⟩
  · show result.colors.getD 0 "" = result.colors.headD ""
    rw [hc]
    simp
  · show result.colors.getD (result.colors.length - 1) ""
        = result.colors.getLastD ""
    rw [List.getD_eq_getElem?_getD, List.getLastD_eq_getLast?,
      List.getLast?_eq_getElem?]

/-- Witness for C4: the response `{colors:["#111111","#222222","#333333"]}`
turns the default background into a `#111111 → #333333` gradient with
direction `to bottom right`. -/
theorem c4_smart_palette_applies_gradient_witness :
    (handleSmartPalette (some "img") defaultSettings.background
        { colors := ["#111111", "#222222", "#333333"], description := none }).type
      = .gradient
    ∧ (handleSmartPalette (some "img") defaultSettings.background
        { colors := ["#111111", "#222222", "#333333"], description := none }).gradient.start
      = "#111111"
    ∧ (handleSmartPalette (some "img") defaultSettings.background
        { colors := ["#111111", "#222222", "#333333"], description := none }).gradient.«end»
      = "#333333"
    ∧ (handleSmartPalette (some "img") defaultSettings.background
        { colors := ["#111111", "#222222", "#333333"], description := none }).gradient.direction
      = .toBottomRight := by
  have h := c4_smart_palette_applies_gradient "img" defaultSettings.background
    { colors := ["#111111", "#222222", "#333333"], description := none } (by decide)
  exact ⟨h.1, h.2.1, h.2.2.1, h.2.2.2.1⟩

/-- C5 counterexample: the missing-credential case is NOT treated identically
to the remote-failure case — for the same failed remote call, the empty-key
fallback palette differs from the catch-branch fallback palette. -/
theorem c5_fallbacks_differ_counterexample :
    generateSmartPalette "" (Except.error "network error")
      ≠ generateSmartPalette "test-key" (Except.error "network error") := by
  decide

/-- C5 (amended): `generateSmartPalette` never propagates an exception —
every input yields a palette — and both degraded paths return fixed
fallbacks: an empty/absent credential yields the no-key fallback
`#3b82f6/#8b5cf6/#ec4899` without attempting the remote call, while a
remote failure under a configured credential yields the distinct
dark-mode fallback `#18181b/#27272a/#3f3f46`. -/
theorem c5_degrades_to_fallback (apiKey : String)
    (remote : Except String GeneratedPalette) :
    (apiKey = "" → generateSmartPalette apiKey remote = fallbackNoKey)
    ∧ (∀ e, apiKey ≠ "" → remote = Except.error e →
        generateSmartPalette apiKey remote = fallbackError) := by
  constructor
  · intro h
    simp [generateSmartPalette, h]
  · intro e hk hr
    simp [generateSmartPalette, hk, hr]

/-- Witness for C5 (amended): the empty key yields the no-key fallback even
when the remote would succeed; a configured key with a failing remote yields
the dark-mode fallback. -/
theorem c5_degrades_to_fallback_witness :
    generateSmartPalette "" (Except.ok fallbackError) = fallbackNoKey
    ∧ generateSmartPalette "test-key" (Except.error "boom") = fallbackError :=
  ⟨(c5_degrades_to_fallback "" (Except.ok fallbackError)).1 rfl,
   (c5_degrades_to_fallback "test-key" (Except.error "boom")).2 "boom"
      (by decide) rfl⟩

/-- C6: a jpeg export's rasterization call carries an explicit backing fill
color — the solid color when `background.type` is `solid`, black (`#000`)
otherwise — and the rasterizer fills transparent frame regions with exactly
that color. -/
theorem c6_jpeg_backing_fill (s : EditorSettings) (img : String)
    (pngUrl jpegUrl : String) (webpBlob : Option Blob)
    (mkObjectURL : Blob → String) (hfmt : s.outputFormat = .jpeg) :
    (handleDownload s (some img) true pngUrl jpegUrl webpBlob mkObjectURL).head?
      = some (.rasterJpeg
          { pixelRatio := 2
            quality := some 1
            backgroundColor :=
              some (if s.background.type = .solid then s.background.solid
                else "#000") })
    ∧ rasterizePixel none (exportBackgroundColor s.background)
        = (if s.background.type = .solid then s.background.solid else "#000") := by
  constructor
  · simp [handleDownload, hfmt, exportBackgroundColor]
  · rfl

/-- Witness for C6: with the default settings (jpeg format, wallpaper
background) the jpeg rasterization is handed black, and black fills a
transparent pixel. -/
theorem c6_jpeg_backing_fill_witness :
    (handleDownload defaultSettings (some "img") true "png-url" "jpeg-url"
        none (fun _ => "blob:0")).head?
      = some (.rasterJpeg
          { pixelRatio := 2, quality := some 1, backgroundColor := some "#000" })
    ∧ rasterizePixel none (exportBackgroundColor defaultSettings.background)
        = "#000" := by
  have h := c6_jpeg_backing_fill defaultSettings "img" "png-url" "jpeg-url"
    none (fun _ => "blob:0") rfl
  simpa [defaultSettings] using h

/-- C7: for `wallpaper` and `image` backgrounds the resolver yields a
cover-fit, centered bitmap paint; exactly when `blur > 0` it adds a
`blur(...)` filter and the fixed 5% upscale `scale(1.05)`, and when
`blur = 0` neither the filter nor the transform is set. -/
theorem c7_bitmap_cover_blur (bg : BackgroundConfig)
    (h : bg.type = .wallpaper ∨ bg.type = .image) :
    (getBackgroundStyle bg).backgroundImage = some ("url(" ++ bg.image ++ ")")
    ∧ (getBackgroundStyle bg).backgroundSize = some "cover"
    ∧ (getBackgroundStyle bg).backgroundPosition = some "center"
    ∧ (0 < bg.blur →
        (getBackgroundStyle bg).filter
            = some ("blur(" ++ toString bg.blur ++ "px)")
        ∧ (getBackgroundStyle bg).transform = some "scale(1.05)")
    ∧ (bg.blur = 0 →
        (getBackgroundStyle bg).filter = none
        ∧ (getBackgroundStyle bg).transform = none) := by
  rcases Nat.eq_zero_or_pos bg.blur with hb | hb
  · rcases h with h | h <;> simp [getBackgroundStyle, h, hb]
  · rcases h with h | h <;> simp [getBackgroundStyle, h, hb, hb.ne']

/-- Witness for C7: a wallpaper background with blur 12 gets the filter and
the 5% upscale; an image background with blur 0 gets neither. -/
theorem c7_bitmap_cover_blur_witness :
    ((getBackgroundStyle
          ⟨.wallpaper, "#1a1a1a", ⟨"#09203f", "#537895", .toTop⟩, "/img.png", 12⟩).filter
        = some ("blur(" ++ toString 12 ++ "px)")
      ∧ (getBackgroundStyle
          ⟨.wallpaper, "#1a1a1a", ⟨"#09203f", "#537895", .toTop⟩, "/img.png", 12⟩).transform
        = some "scale(1.05)")
    ∧ ((getBackgroundStyle
          ⟨.image, "#1a1a1a", ⟨"#09203f", "#537895", .toTop⟩, "/img.png", 0⟩).filter
        = none
      ∧ (getBackgroundStyle
          ⟨.image, "#1a1a1a", ⟨"#09203f", "#537895", .toTop⟩, "/img.png", 0⟩).transform
        = none) :=
  ⟨(c7_bitmap_cover_blur _ (Or.inl rfl)).2.2.2.1 (by decide),
   (c7_bitmap_cover_blur _ (Or.inr rfl)).2.2.2.2 rfl⟩

/-- C8: a webp export that yields a blob creates an object URL for it,
triggers the download from that URL, and then revokes the same URL — the
full trace is exactly rasterize, create, download, revoke, so no object URL
created by the export is left unreleased. -/
theorem c8_webp_url_revoked (s : EditorSettings) (img : String)
    (pngUrl jpegUrl : String) (b : Blob) (mkObjectURL : Blob → String)
    (hfmt : s.outputFormat = .webp) (hurl : mkObjectURL b ≠ "") :
    handleDownload s (some img) true pngUrl jpegUrl (some b) mkObjectURL
      = [.rasterBlob { pixelRatio := 2, mimeType := some "image/webp" },
         .createObjectURL (mkObjectURL b),
         .triggerDownload (mkObjectURL b)
           ("screenshot-studio-export." ++ ExportFormat.webp.ext),
         .revokeObjectURL (mkObjectURL b)] := by
  simp [handleDownload, hfmt, hurl]

/-- Witness for C8: a concrete webp export whose blob maps to `blob:url-1`
produces the create/download/revoke trace for that URL. -/
theorem c8_webp_url_revoked_witness :
    handleDownload { defaultSettings with outputFormat := .webp } (some "img")
        true "png-url" "jpeg-url" (some 0) (fun _ => "blob:url-1")
      = [.rasterBlob { pixelRatio := 2, mimeType := some "image/webp" },
         .createObjectURL "blob:url-1",
         .triggerDownload "blob:url-1"
           ("screenshot-studio-export." ++ ExportFormat.webp.ext),
         .revokeObjectURL "blob:url-1"] :=
  c8_webp_url_revoked { defaultSettings with outputFormat := .webp } "img"
    "png-url" "jpeg-url" 0 (fun _ => "blob:url-1") rfl (by decide)

/-- C9: ingestion of a source whose MIME type does not begin with `image/`
is a silent no-op through every entry point — `processFile` itself, the
file-picker handler, drag-and-drop, and clipboard paste — leaving the
current image unchanged. -/
theorem c9_non_image_ingest_noop (current : Option String) (f : IngestFile)
    (files : List IngestFile) (items : List ClipItem)
    (hf : mimeIsImage f.mime = false)
    (hitems : (items.all fun it => it.file.all fun g => !mimeIsImage g.mime)
        = true) :
    processFile current f = current
    ∧ handleUpload current (some f) = current
    ∧ handleFileDrop current (f :: files) = current
    ∧ handlePaste current items = current := by
  have hp : processFile current f = current := by
    simp [processFile, hf]
  refine ⟨hp, hp, hp, ?_⟩
  unfold handlePaste
  cases hfind : items.find? (fun it => mimeMentionsImage it.mime) with
  | none => rfl
  | some it =>
      have hmem : it ∈ items := List.mem_of_find?_eq_some hfind
      have hall := List.all_eq_true.mp hitems it hmem
      cases hfile : it.file with
      | none => simp [hfile]
      | some g =>
          have hg : mimeIsImage g.mime = false := by
            rw [hfile] at hall
            simpa using hall
          simp [hfile, processFile, hg]

/-- Witness for C9: a PDF upload (via each entry point) and a paste whose
only image-flavored item carries a non-image file all leave the loaded
image untouched. -/
theorem c9_non_image_ingest_noop_witness :
    processFile (some "kept") ⟨"application/pdf", "DATA"⟩ = some "kept"
    ∧ handleUpload (some "kept") (some ⟨"application/pdf", "DATA"⟩) = some "kept"
    ∧ handleFileDrop (some "kept") [⟨"application/pdf", "DATA"⟩] = some "kept"
    ∧ handlePaste (some "kept")
        [⟨"text/plain", none⟩, ⟨"fake-image", some ⟨"text/imagelike", "D"⟩⟩]
      = some "kept" :=
  c9_non_image_ingest_noop (some "kept") ⟨"application/pdf", "DATA"⟩ []
    [⟨"text/plain", none⟩, ⟨"fake-image", some ⟨"text/imagelike", "D"⟩⟩]
    (by decide) (by decide)

/-- C10 (implicit): with no image loaded or no export frame node, both the
download and the copy-to-clipboard handlers return immediately — their
effect traces are empty, so no rasterization, download, or clipboard write
happens and nothing is altered. -/
theorem c10_guard_returns_immediately (s : EditorSettings)
    (image : Option String) (hasNode : Bool) (pngUrl jpegUrl : String)
    (webpBlob : Option Blob) (mkObjectURL : Blob → String)
    (copyBlob : Option Blob) (h : image = none ∨ hasNode = false) :
    handleDownload s image hasNode pngUrl jpegUrl webpBlob mkObjectURL = []
    ∧ handleCopy s image hasNode copyBlob = [] := by
  rcases h with h | h <;> subst h <;>
    exact ⟨by simp [handleDownload], by simp [handleCopy]⟩

/-- Witness for C10: both the no-image and the no-node guard cases produce
empty traces for download and copy. -/
theorem c10_guard_returns_immediately_witness :
    (handleDownload defaultSettings none true "u" "u" none (fun _ => "b") = []
      ∧ handleCopy defaultSettings none true none = [])
    ∧ (handleDownload defaultSettings (some "img") false "u" "u" none
          (fun _ => "b") = []
      ∧ handleCopy defaultSettings (some "img") false none = []) :=
  ⟨c10_guard_returns_immediately defaultSettings none true "u" "u" none
      (fun _ => "b") none (Or.inl rfl),
   c10_guard_returns_immediately defaultSettings (some "img") false "u" "u"
      none (fun _ => "b") none (Or.inr rfl)⟩

end ScreenshotStudio
